import Mathlib

/-!
Verification of the Earth Engine client bootstrap (`src/javascript/src/ee.js`).

The file shallowly embeds the three algorithmic pieces of `ee.js`:

* the initialization state machine (`ee.initialize`, `ee.reset`,
  `ee.initializationSuccess_`, `ee.initializationFailure_`),
* the generated-class eligibility computation (`ee.initializeGeneratedClasses_`),
* the type-promotion engine (`ee.promote_`).

Callbacks are opaque identifiers (`Nat`); invocations of callbacks and calls
into the collaborators (transport configuration, signature loads) are recorded
as an event trace, so ordering claims become statements about traces.  The
outcome of the signature load and of the hand-written types' `initialize()`
hooks — external code the controller merely observes succeeding or throwing —
are passed in as `Except` parameters.  A thrown JavaScript exception escaping
a call is modelled as an `Option Err` result component.
-/

namespace EEJs

/-- `ee.InitState`: the three states of the library initialization, from
`ee.js` lines 132-136. -/
inductive InitState where
  | NOT_READY
  | LOADING
  | READY
deriving DecidableEq, Repr

/-- Errors observable from the controller: the usage error thrown by
`ee.initialize` (`"Can't pass an error callback without a success callback."`)
and opaque external errors (`Error` values raised by the signature load or by
an initialization hook), identified by a number. -/
inductive Err where
  | usageError
  | ext (n : Nat)
deriving DecidableEq, Repr

/-- The controller's mutable module state: `ee.ready_`, `ee.successCallbacks_`
and `ee.errorCallbacks_` (`ee.js` lines 148, 158, 168).  Callbacks are opaque
identifiers. -/
structure EE where
  ready : InitState
  successCallbacks : List Nat
  errorCallbacks : List Nat
deriving DecidableEq, Repr

/-- Observable events emitted while the controller runs: a call to
`ee.data.initialize(baseurl, tileurl)`, a synchronous
`ee.ApiFunction.initialize()`, the start of an asynchronous
`ee.ApiFunction.initialize(onSuccess, onError)` load, and invocations of
queued user callbacks. -/
inductive Ev where
  | configure (baseurl tileurl : Option String)
  | syncLoad
  | asyncLoadStart
  | invokeSuccess (cb : Nat)
  | invokeError (cb : Nat) (e : Err)
deriving DecidableEq, Repr

/-- JavaScript falsiness of an optional string parameter: `!opt_baseurl` is
true when the argument is absent/`null`/`undefined` or the empty string. -/
def falsy : Option String → Bool
  | none => true
  | some s => s = ""

/-- `ee.initializationFailure_` (`ee.js` lines 299-317): no-op unless the
state is `LOADING`; otherwise set `NOT_READY`, clear the success queue and
drain the error queue in FIFO order, passing the triggering error to each
callback.  The returned trace lists the callback invocations in the order the
`shift()` loop performs them. -/
def initializationFailure (e : Err) (s : EE) : EE × List Ev :=
  if s.ready ≠ InitState.LOADING then (s, [])
  else (⟨InitState.NOT_READY, [], []⟩, s.errorCallbacks.map (fun cb => Ev.invokeError cb e))

/-- `ee.initializationSuccess_` (`ee.js` lines 250-291): no-op unless the
state is `LOADING`.  The hand-written types' `initialize()` hooks,
`ee.initializeGeneratedClasses_()` and `ee.initializeUnboundMethods_()` run
inside a `try`: their combined outcome is the `hookResult` parameter.  If any
raises `e`, `ee.initializationFailure_(e)` is invoked and the function
*returns normally* (the error is swallowed here).  On success: state `READY`,
error queue cleared, success queue drained in FIFO order by the `shift()`
loop. -/
def initializationSuccess (hookResult : Except Err Unit) (s : EE) : EE × List Ev :=
  if s.ready ≠ InitState.LOADING then (s, [])
  else
    match hookResult with
    | Except.error e => initializationFailure e s
    | Except.ok _ =>
        (⟨InitState.READY, [], []⟩, s.successCallbacks.map Ev.invokeSuccess)

/-- `ee.initialize` (`ee.js` lines 51-96).  Parameters mirror the source:
endpoint strings, optional success/error callbacks (opaque ids).  `loadResult`
is the outcome of a synchronous `ee.ApiFunction.initialize()` (external code),
`hookResult` the combined outcome of the initialization hooks run inside
`ee.initializationSuccess_`.  Returns the new state, the event trace, and the
error thrown to the caller, if any.  User callbacks are assumed not to throw
(their bodies are external). -/
def initializeLib (baseurl tileurl : Option String) (onSuccess onError : Option Nat)
    (loadResult hookResult : Except Err Unit) (s : EE) : EE × List Ev × Option Err :=
  -- "If we're already initialized and not getting new parameters, just return."
  if s.ready = InitState.READY ∧ falsy baseurl ∧ falsy tileurl then
    (s, (match onSuccess with
         | some cb => [Ev.invokeSuccess cb]
         | none => []), none)
  else
    let isAsynchronous := onSuccess.isSome
    if onError.isSome ∧ ¬ isAsynchronous then
      -- throw Error("Can't pass an error callback without a success callback.")
      (s, [], some Err.usageError)
    else
      -- Register the error callback.
      let s1 := match onError with
        | some ecb => { s with errorCallbacks := s.errorCallbacks ++ [ecb] }
        | none => s
      -- Already loading + asynchronous: queue the success callback and return.
      if s1.ready = InitState.LOADING ∧ isAsynchronous then
        (match onSuccess with
         | some cb => { s1 with successCallbacks := s1.successCallbacks ++ [cb] }
         | none => s1, [], none)
      else
        let s2 := { s1 with ready := InitState.LOADING }
        match onSuccess with
        | some cb =>
            ({ s2 with successCallbacks := s2.successCallbacks ++ [cb] },
             [Ev.configure baseurl tileurl, Ev.asyncLoadStart], none)
        | none =>
            match loadResult with
            | Except.ok _ =>
                let r := initializationSuccess hookResult s2
                (r.1, [Ev.configure baseurl tileurl, Ev.syncLoad] ++ r.2, none)
            | Except.error e =>
                let r := initializationFailure e s2
                (r.1, [Ev.configure baseurl tileurl, Ev.syncLoad] ++ r.2, some e)

/-- `ee.reset` (`ee.js` lines 104-121): sets `ee.ready_` to `NOT_READY` and
resets the collaborators and generated classes.  It does not touch
`ee.successCallbacks_` or `ee.errorCallbacks_`. -/
def reset (s : EE) : EE :=
  { s with ready := InitState.NOT_READY }

deriving instance DecidableEq for Except

/-- The externally triggerable transitions of the controller: an `initialize`
call, a `reset` call, and the completion (success or failure) of an
asynchronous signature load delivered to the internal handlers. -/
inductive Step where
  | init (baseurl tileurl : Option String) (onSuccess onError : Option Nat)
      (loadResult hookResult : Except Err Unit)
  | reset
  | asyncSuccess (hookResult : Except Err Unit)
  | asyncFailure (e : Err)
deriving DecidableEq, Repr

/-- Apply one transition to a state (event traces and thrown errors
discarded). -/
def stepRun (s : EE) : Step → EE
  | Step.init b t os oe l h => (initializeLib b t os oe l h s).1
  | Step.reset => reset s
  | Step.asyncSuccess h => (initializationSuccess h s).1
  | Step.asyncFailure e => (initializationFailure e s).1

/-- The module-load state: `NOT_READY`, both queues empty. -/
def init0 : EE := ⟨InitState.NOT_READY, [], []⟩

/-- The state reached from module load by a sequence of transitions. -/
def run (steps : List Step) : EE := steps.foldl stepRun init0

/-- The queue invariant of the spec: outside of `LOADING`, both callback
queues are empty. -/
def QueuesEmptyInv (s : EE) : Prop :=
  (s.ready = InitState.NOT_READY ∨ s.ready = InitState.READY) →
    s.successCallbacks = [] ∧ s.errorCallbacks = []

instance (s : EE) : Decidable (QueuesEmptyInv s) := by
  unfold QueuesEmptyInv; infer_instance


/-! ### Generated-class eligibility (`ee.initializeGeneratedClasses_`) -/

/-- The namespace prefix of a dotted signature name: `sig.slice(0,
sig.indexOf('.'))` when `sig.indexOf('.') != -1`. -/
def namePrefix (s : String) : Option String :=
  match s.toList.findIdx? (fun c => c = '.') with
  | none => none
  | some i => some (String.mk (s.toList.take i))

/-- `returns.replace(/<.*>/, '')`: if the string holds a `'<'` with some `'>'`
after it, remove everything from that first `'<'` through the last `'>'`
(the regex is greedy); otherwise leave the string unchanged. -/
def stripTypeParam (s : String) : String :=
  let cs := s.toList
  match cs.findIdx? (fun c => c = '<') with
  | none => s
  | some i =>
      if (cs.drop (i + 1)).contains '>' then
        let j := cs.length - 1 - (cs.reverse.findIdx (fun c => c = '>'))
        String.mk (cs.take i ++ cs.drop (j + 1))
      else s

/-- Key insertion into a plain JS object used as a set (`names[type] = true`):
a repeated key keeps its first position. -/
def insertName (ns : List String) (n : String) : List String :=
  if ns.contains n then ns else ns ++ [n]

/-- `ee.initializeGeneratedClasses_` (`ee.js` lines 489-523), as a function
from the signature catalog (name, return-type pairs, in enumeration order)
and the set of names already exported on `goog.global['ee']` to the list of
class names that get generated.

The blacklist loop is translated exactly as written: `for (var badName in
blacklist)` enumerates the KEYS of the array `['List']` — the index string
`"0"` — not its elements, so it deletes `names["0"]`, never `names["List"]`.

JS object key enumeration places integer-like keys first; that can only
permute the result list, never change membership, and is not modelled. -/
def initializeGeneratedClasses (sigs : List (String × String))
    (exported : List String) : List String :=
  let names := sigs.foldl (fun ns (p : String × String) =>
    match namePrefix p.1 with
    | some t => insertName ns t
    | none => ns) []
  let returnTypes := sigs.foldl
    (fun ns (p : String × String) => insertName ns (stripTypeParam p.2)) []
  let blacklist : List String := ["List"]
  let names := (List.range blacklist.length).foldl
    (fun ns i => ns.filter (fun n => n ≠ toString i)) names
  names.filter (fun n => returnTypes.contains n && !(exported.contains n))

/-! ### The type promoter (`ee.promote_`) -/

/-- The universe of JavaScript values the promoter manipulates.  `inst k v`
is an instance of the proxy class named `k` (hand-written or generated)
wrapping the underlying value `v`; `computedCall`/`computedCall2` are bare
`ee.ComputedObject`s holding a server call with one or two arguments (the
promoter never builds wider calls); `nativeDate` is a JS `Date` built by
`new Date(x)` (its numeric content is irrelevant here and kept opaque);
`apiFunc` is an `ee.ApiFunction`; `varRef t n` is a variable
`ComputedObject` declared with type `t` (what `ee.Types.isVarOfType`
recognizes). -/
inductive EEValue where
  | null
  | undef
  | num (n : Int)
  | str (s : String)
  | nativeDate (v : EEValue)
  | computedCall (func : String) (a : EEValue)
  | computedCall2 (func : String) (a b : EEValue)
  | inst (klass : String) (v : EEValue)
  | apiFunc (name : String)
  | varRef (type varName : String)
deriving DecidableEq, Repr

/-- The hand-written collection hierarchy: `ee.FeatureCollection` and
`ee.ImageCollection` extend `ee.Collection`. -/
def isCollectionClass (k : String) : Bool :=
  k = "Collection" || k = "FeatureCollection" || k = "ImageCollection"

/-- `arg instanceof ee.ComputedObject`: every proxy instance (hand-written or
generated) and every variable extends `ee.ComputedObject`; native dates,
numbers, strings and `ee.ApiFunction`s do not. -/
def isComputedObject : EEValue → Bool
  | EEValue.computedCall .. => true
  | EEValue.computedCall2 .. => true
  | EEValue.inst .. => true
  | EEValue.varRef .. => true
  | _ => false

/-- `arg instanceof` the class registered under `klass`, following the
hierarchy above. -/
def instanceofName (v : EEValue) (klass : String) : Bool :=
  if klass = "ComputedObject" then isComputedObject v
  else
    match v with
    | EEValue.inst k _ => k = klass || (klass = "Collection" && isCollectionClass k)
    | _ => false

/-- `arg instanceof ee.Collection`. -/
def isCollection (v : EEValue) : Bool :=
  instanceofName v "Collection"

/-- `goog.isNumber`. -/
def isNum : EEValue → Bool
  | EEValue.num _ => true
  | _ => false

/-- `goog.isString` / `ee.Types.isString` on this value universe. -/
def isStr : EEValue → Bool
  | EEValue.str _ => true
  | _ => false

/-- `ee.Types.isVarOfType(arg, ee.String)`: the value is a variable computed
object declared with type `String`.  Modelled from the spec ("a
declared-string-typed variable"); `ee.Types` lives outside `src/`. -/
def isVarOfStringType : EEValue → Bool
  | EEValue.varRef t _ => t = "String"
  | _ => false

/-- JavaScript truthiness of a (non-`null`, non-`undefined`-tested) value:
`0` and `""` are falsy, objects are truthy. -/
def truthy : EEValue → Bool
  | EEValue.null => false
  | EEValue.undef => false
  | EEValue.num n => decide (n ≠ 0)
  | EEValue.str s => decide (s ≠ "")
  | _ => true

/-- The registered proxy types visible as `goog.global['ee']` members:
`classes` lists the registered class names (hand-written and generated), and
`members` gives, per class, the zero-argument factory members the default
promotion branch can invoke (`exportedEE[klass][arg].call()`), each mapped to
the value that invocation returns.  Modelled from the spec: the member
functions themselves are catalog-bound functions living outside `ee.js`, so
only their call results appear here. -/
structure Registry where
  classes : List String
  members : List (String × List (String × EEValue))
deriving DecidableEq, Repr

/-- Member lookup `arg in exportedEE[klass]` / `exportedEE[klass][arg]`. -/
def Registry.member (r : Registry) (klass name : String) : Option EEValue :=
  (r.members.lookup klass).bind (fun tbl => tbl.lookup name)

/-- Modelled from the spec: the hand-written proxy constructors (`ee.Image`,
`ee.Feature`, `ee.Geometry`, `ee.Filter`, `ee.String`, ...) are not under
`src/`; the spec calls them "wrap value as an X proxy", and its promotion-
idempotence property (§8) requires wrapping a value that is already an
instance of the target type to be the identity, which is how those
constructors behave.  We model them accordingly. -/
def protoCtor (k : String) (v : EEValue) : EEValue :=
  if instanceofName v k then v else EEValue.inst k v

/-- Modelled from the spec: `ee.ApiFunction._call` builds a server call and
casts the result to the called algorithm's declared return type (§6
`buildCall`, §4.4 examples: promoting a `FeatureCollection` to `Geometry`
"yields the result of reducing that collection to its geometry").  The
promoter calls algorithms `Feature` (returns `Feature`),
`Collection.geometry` (returns `Geometry`) and `ErrorMargin` (returns
`ErrorMargin`, which has no proxy class, so no cast applies). -/
def callReturnClass (name : String) : Option String :=
  if name = "Feature" then some "Feature"
  else if name = "Collection.geometry" then some "Geometry"
  else none

/-- `ee.ApiFunction._call(name, a)` with the return-type cast above. -/
def apiCall1 (name : String) (a : EEValue) : EEValue :=
  match callReturnClass name with
  | some k => EEValue.inst k (EEValue.computedCall name a)
  | none => EEValue.computedCall name a

/-- `ee.ApiFunction._call(name, a, b)` with the return-type cast above. -/
def apiCall2 (name : String) (a b : EEValue) : EEValue :=
  match callReturnClass name with
  | some k => EEValue.inst k (EEValue.computedCall2 name a b)
  | none => EEValue.computedCall2 name a b

/-- `new exportedEE[klass](arg)` in the default branch.  For a generated
class this is `ee.makeClass_`'s constructor (`ee.js` lines 564-586): a single
computed-object argument is wrapped directly, any other argument is passed to
the algorithm named after the class and the resulting call wrapped.
Hand-written classes reachable here (e.g. `ee.Number`) are modelled the same
way (Modelled from the spec: they live outside `src/`). -/
def defaultNew (klass : String) (v : EEValue) : EEValue :=
  if isComputedObject v then EEValue.inst klass v
  else EEValue.inst klass (EEValue.computedCall klass v)

/-- `ee.promote_`'s `switch (klass)` (`ee.js` lines 340-442), for an `arg`
already known not to be `null`/`undefined`.  The `Date` branch deliberately
builds a bare `ee.ComputedObject` over the `Date` algorithm ("not using call
to avoid the return type being recast"); its single parameter is named
`value` and `promoteArgs` passes a computed object through, so the result is
the call `Date(arg)` with no cast. -/
def promoteSwitch (r : Registry) (arg : EEValue) (klass : String) :
    Except String EEValue :=
  if klass = "Image" then Except.ok (protoCtor "Image" arg)
  else if klass = "ImageCollection" then Except.ok (protoCtor "ImageCollection" arg)
  else if klass = "Feature" ∨ klass = "EEObject" then
    if isCollection arg then
      Except.ok (apiCall1 "Feature" (apiCall1 "Collection.geometry" arg))
    else if klass = "EEObject" ∧ instanceofName arg "Image" then Except.ok arg
    else Except.ok (protoCtor "Feature" arg)
  else if klass = "Geometry" then
    if instanceofName arg "FeatureCollection" then
      Except.ok (apiCall1 "Collection.geometry" arg)
    else Except.ok (protoCtor "Geometry" arg)
  else if klass = "FeatureCollection" ∨ klass = "EECollection" ∨ klass = "Collection" then
    if isCollection arg then Except.ok arg
    else Except.ok (protoCtor "FeatureCollection" arg)
  else if klass = "Filter" then Except.ok (protoCtor "Filter" arg)
  else if klass = "ErrorMargin" then
    if isNum arg then Except.ok (apiCall2 "ErrorMargin" arg (EEValue.str "meters"))
    else Except.ok arg
  else if klass = "Algorithm" then
    match arg with
    | EEValue.str s => Except.ok (EEValue.apiFunc s)
    | _ => Except.ok arg
  else if klass = "Date" then
    if isStr arg then Except.ok (EEValue.nativeDate arg)
    else if isNum arg then Except.ok (EEValue.nativeDate arg)
    else if isComputedObject arg then Except.ok (EEValue.computedCall "Date" arg)
    else Except.ok arg
  else if klass = "Dictionary" then
    if ¬ r.classes.contains "Dictionary" then Except.ok arg
    else if instanceofName arg "Dictionary" then Except.ok arg
    else if isComputedObject arg then Except.ok (EEValue.inst "Dictionary" arg)
    else Except.ok arg
  else if klass = "String" then
    if isStr arg || instanceofName arg "String" || isComputedObject arg ||
        isVarOfStringType arg then
      Except.ok (protoCtor "String" arg)
    else Except.ok arg
  else if klass = "List" then Except.ok arg
  else
    -- default: dynamically look the name up among the registered classes.
    if r.classes.contains klass ∧ truthy arg then
      if instanceofName arg klass then Except.ok arg
      else
        match arg with
        | EEValue.str s =>
            match r.member klass s with
            | none => Except.error ("Unknown algorithm: " ++ klass ++ "." ++ s)
            | some v => Except.ok v
        | _ => Except.ok (defaultNew klass arg)
    else Except.ok arg

/-- `ee.promote_` (`ee.js` lines 331-443): `null` and `undefined` short-
circuit, everything else goes through the `switch`. -/
def promote (r : Registry) (arg : EEValue) (klass : String) :
    Except String EEValue :=
  if arg = EEValue.null then Except.ok EEValue.null
  else if arg = EEValue.undef then Except.ok EEValue.undef
  else promoteSwitch r arg klass

/-- The factory members a registry exposes return instances of their own
class (they are the zero-argument constructors-by-name the spec's default
branch describes). -/
def Registry.FactoriesTyped (r : Registry) : Prop :=
  ∀ k m v, r.member k m = some v → instanceofName v k = true

/-! ## Claims -/

/-- C3 (code_bug evidence): the reserved-name blacklist of
`ee.initializeGeneratedClasses_` is ineffective.  With a signature catalog
containing a function `List.sequence` whose return type is `List`, and no
hand-written `List` type exported, a class named `List` IS generated: the
`for (var badName in blacklist)` loop enumerates the index `"0"` of the array
`['List']`, not the name `"List"`, so the blacklist never removes anything,
contradicting the adjacent source comment "We don't allow these types to be
autogenerated". -/
theorem c3_blacklist_ineffective :
    initializeGeneratedClasses [("List.sequence", "List")] [] = ["List"] := by
  decide

/-- C7: an `initialize` call not served by the READY fast path that passes an
error callback without a success callback throws the usage error immediately;
the state and both queues are untouched and no transport-configuration or
load event occurs. -/
theorem c7_usage_error_leaves_state_unchanged
    (b t : Option String) (ecb : Nat) (l h : Except Err Unit) (s : EE)
    (hfast : ¬ (s.ready = InitState.READY ∧ falsy b ∧ falsy t)) :
    initializeLib b t none (some ecb) l h s = (s, [], some Err.usageError) := by
  unfold initializeLib
  rw [if_neg hfast]
  simp

/-- Witness for `c7_usage_error_leaves_state_unchanged` at the module-load
state. -/
theorem c7_usage_error_leaves_state_unchanged_witness :
    initializeLib none none none (some 3) (Except.ok ()) (Except.ok ()) init0 =
      (init0, [], some Err.usageError) :=
  c7_usage_error_leaves_state_unchanged none none 3 _ _ init0 (by decide)

/-- C10: when state is READY and no endpoint configuration is given, a call
providing an error callback but no success callback is served by the fast
path: it returns with no effect and no usage error is raised. -/
theorem c10_fast_path_skips_usage_error
    (b t : Option String) (ecb : Nat) (l h : Except Err Unit) (s : EE)
    (hr : s.ready = InitState.READY) (hb : falsy b = true) (ht : falsy t = true) :
    initializeLib b t none (some ecb) l h s = (s, [], none) := by
  unfold initializeLib
  rw [if_pos ⟨hr, hb, ht⟩]

/-- Witness for `c10_fast_path_skips_usage_error`: a READY state with empty
queues, no endpoints, an error callback and no success callback. -/
theorem c10_fast_path_skips_usage_error_witness :
    initializeLib none none none (some 3) (Except.ok ()) (Except.ok ())
        ⟨InitState.READY, [], []⟩ = (⟨InitState.READY, [], []⟩, [], none) :=
  c10_fast_path_skips_usage_error none none 3 _ _ ⟨InitState.READY, [], []⟩
    rfl rfl rfl

/-- C5 counterexample: the READY fast path requires that NO endpoint
configuration be passed, not that the configuration be identical to the
previous call's.  Here the library is brought to READY by a synchronous
`initialize('b')`; a second, identically configured `initialize('b')` is not
served by the fast path: it reconfigures the transport and re-runs the
signature load (the claim says no transport configuration or signature load
occurs). -/
theorem c5_identical_config_reruns_bootstrap :
    (initializeLib (some "b") none none none (Except.ok ()) (Except.ok ())
        init0).1 = ⟨InitState.READY, [], []⟩ ∧
    (initializeLib (some "b") none none none (Except.ok ()) (Except.ok ())
        ⟨InitState.READY, [], []⟩).2.1 =
      [Ev.configure (some "b") none, Ev.syncLoad] := by
  decide

/-- C5 (amended): an `initialize` call made while READY passing no endpoint
configuration (both endpoints absent/falsy) does not re-run the bootstrap:
the state is returned unchanged, no transport-configuration or load event
occurs, a provided success callback is invoked synchronously before the call
returns, and with no success callback the call has no effect. -/
theorem c5_ready_no_config_fast_path
    (b t : Option String) (onS onE : Option Nat) (l h : Except Err Unit) (s : EE)
    (hr : s.ready = InitState.READY) (hb : falsy b = true) (ht : falsy t = true) :
    initializeLib b t onS onE l h s =
      (s, (match onS with
           | some cb => [Ev.invokeSuccess cb]
           | none => []), none) := by
  unfold initializeLib
  rw [if_pos ⟨hr, hb, ht⟩]

/-- Witness for `c5_ready_no_config_fast_path`: a READY state, no new
endpoints, a success callback; the callback fires synchronously and the
state is unchanged. -/
theorem c5_ready_no_config_fast_path_witness :
    initializeLib none none (some 4) none (Except.ok ()) (Except.ok ())
        ⟨InitState.READY, [], []⟩ =
      (⟨InitState.READY, [], []⟩, [Ev.invokeSuccess 4], none) :=
  c5_ready_no_config_fast_path none none (some 4) none _ _
    ⟨InitState.READY, [], []⟩ rfl rfl rfl

/-- C1 counterexample: a synchronous `initialize` in which the signature load
succeeds but the initialization hooks raise (here error `5`, with error
callback `7` queued by an earlier asynchronous call).  The internal failure
handler does run — the state ends `NOT_READY` and the error callback is
drained with the error — but the returned thrown-error component is `none`:
`ee.initializationSuccess_` catches the hook error itself and returns
normally, so nothing reaches the `catch`/`throw` in `ee.initialize` and the
caller's stack does NOT unwind with `e` as the claim states. -/
theorem c1_sync_hook_failure_not_reraised :
    initializeLib none none none none (Except.ok ()) (Except.error (Err.ext 5))
        ⟨InitState.LOADING, [], [7]⟩ =
      (⟨InitState.NOT_READY, [], []⟩,
       [Ev.configure none none, Ev.syncLoad, Ev.invokeError 7 (Err.ext 5)],
       none) := by
  decide

/-- C1 (amended): for every synchronous `initialize` call that reaches the
bootstrap, if the signature load succeeds but an initialization hook raises
`e`, the internal failure handler runs — the final state is `NOT_READY` with
both queues empty, and the queued error callbacks are drained with `e` —
but `e` is NOT re-raised: the call returns normally (only a failure of the
signature load itself is re-raised to a synchronous caller). -/
theorem c1_sync_hook_failure_runs_failure_handler
    (b t : Option String) (e : Err) (s : EE)
    (hfast : ¬ (s.ready = InitState.READY ∧ falsy b ∧ falsy t)) :
    initializeLib b t none none (Except.ok ()) (Except.error e) s =
      (⟨InitState.NOT_READY, [], []⟩,
       [Ev.configure b t, Ev.syncLoad] ++
         s.errorCallbacks.map (fun cb => Ev.invokeError cb e),
       none) := by
  unfold initializeLib
  rw [if_neg hfast]
  simp [initializationSuccess, initializationFailure]

/-- Witness for `c1_sync_hook_failure_runs_failure_handler` at a LOADING
state carrying one queued error callback. -/
theorem c1_sync_hook_failure_runs_failure_handler_witness :
    initializeLib none none none none (Except.ok ()) (Except.error (Err.ext 9))
        ⟨InitState.LOADING, [2], [8]⟩ =
      (⟨InitState.NOT_READY, [], []⟩,
       [Ev.configure none none, Ev.syncLoad, Ev.invokeError 8 (Err.ext 9)],
       none) :=
  c1_sync_hook_failure_runs_failure_handler none none (Err.ext 9)
    ⟨InitState.LOADING, [2], [8]⟩ (by decide)

/-- C4: from a `NOT_READY` state, an asynchronous `initialize` (which queues
its callback and starts a load) followed by a synchronous `initialize` that
runs to resolution leaves the controller resolved exactly once: the second
call ends `READY` having drained every queued callback, and the asynchronous
attempt's later completion — success or failure — finds the state no longer
`LOADING` and is a no-op: it changes nothing and invokes no callback. -/
theorem c4_supersession_stale_completion_noop
    (s : EE) (b t b2 t2 : Option String) (cb : Nat)
    (h2 : Except Err Unit) (e : Err)
    (hs : s.ready = InitState.NOT_READY) :
    (initializeLib b2 t2 none none (Except.ok ()) (Except.ok ())
        (initializeLib b t (some cb) none (Except.ok ()) (Except.ok ()) s).1).1.ready
        = InitState.READY ∧
    (initializeLib b2 t2 none none (Except.ok ()) (Except.ok ())
        (initializeLib b t (some cb) none (Except.ok ()) (Except.ok ()) s).1).2.1 =
      [Ev.configure b2 t2, Ev.syncLoad] ++
        (s.successCallbacks ++ [cb]).map Ev.invokeSuccess ∧
    initializationSuccess h2
        (initializeLib b2 t2 none none (Except.ok ()) (Except.ok ())
          (initializeLib b t (some cb) none (Except.ok ()) (Except.ok ()) s).1).1 =
      ((initializeLib b2 t2 none none (Except.ok ()) (Except.ok ())
          (initializeLib b t (some cb) none (Except.ok ()) (Except.ok ()) s).1).1, []) ∧
    initializationFailure e
        (initializeLib b2 t2 none none (Except.ok ()) (Except.ok ())
          (initializeLib b t (some cb) none (Except.ok ()) (Except.ok ()) s).1).1 =
      ((initializeLib b2 t2 none none (Except.ok ()) (Except.ok ())
          (initializeLib b t (some cb) none (Except.ok ()) (Except.ok ()) s).1).1, []) := by
  simp only [initializeLib, hs, falsy, initializationSuccess, initializationFailure]
  simp

/-- Witness for `c4_supersession_stale_completion_noop` from the module-load
state with a concrete callback and a stale failure delivery. -/
theorem c4_supersession_stale_completion_noop_witness :
    (initializeLib none none none none (Except.ok ()) (Except.ok ())
        (initializeLib none none (some 1) none (Except.ok ()) (Except.ok ())
          init0).1).1.ready = InitState.READY ∧
    (initializeLib none none none none (Except.ok ()) (Except.ok ())
        (initializeLib none none (some 1) none (Except.ok ()) (Except.ok ())
          init0).1).2.1 =
      [Ev.configure none none, Ev.syncLoad] ++
        (init0.successCallbacks ++ [1]).map Ev.invokeSuccess ∧
    initializationSuccess (Except.ok ())
        (initializeLib none none none none (Except.ok ()) (Except.ok ())
          (initializeLib none none (some 1) none (Except.ok ()) (Except.ok ())
            init0).1).1 =
      ((initializeLib none none none none (Except.ok ()) (Except.ok ())
          (initializeLib none none (some 1) none (Except.ok ()) (Except.ok ())
            init0).1).1, []) ∧
    initializationFailure (Err.ext 2)
        (initializeLib none none none none (Except.ok ()) (Except.ok ())
          (initializeLib none none (some 1) none (Except.ok ()) (Except.ok ())
            init0).1).1 =
      ((initializeLib none none none none (Except.ok ()) (Except.ok ())
          (initializeLib none none (some 1) none (Except.ok ()) (Except.ok ())
            init0).1).1, []) :=
  c4_supersession_stale_completion_noop init0 none none none none 1
    (Except.ok ()) (Err.ext 2) rfl

/-- A sequence of asynchronous `initialize` calls: each passes its endpoints,
a success callback and no error callback. -/
def asyncCalls (calls : List (Option String × Option String × Nat)) (s : EE) : EE :=
  calls.foldl
    (fun st c =>
      (initializeLib c.1 c.2.1 (some c.2.2) none (Except.ok ()) (Except.ok ()) st).1)
    s

/-- While the state is `LOADING`, each asynchronous `initialize` call only
appends its success callback to the queue. -/
theorem asyncCalls_loading (calls : List (Option String × Option String × Nat))
    (s : EE) (hs : s.ready = InitState.LOADING) :
    asyncCalls calls s =
      ⟨InitState.LOADING, s.successCallbacks ++ calls.map (fun c => c.2.2),
       s.errorCallbacks⟩ := by
  induction calls generalizing s with
  | nil => simp [asyncCalls, ← hs]
  | cons c rest ih =>
      have hstep :
          (initializeLib c.1 c.2.1 (some c.2.2) none (Except.ok ()) (Except.ok ()) s).1 =
            ⟨InitState.LOADING, s.successCallbacks ++ [c.2.2], s.errorCallbacks⟩ := by
        simp [initializeLib, hs]
      have : asyncCalls (c :: rest) s =
          asyncCalls rest ⟨InitState.LOADING, s.successCallbacks ++ [c.2.2],
            s.errorCallbacks⟩ := by
        simp [asyncCalls, hstep]
      rw [this, ih _ rfl]
      simp

/-- C6: success callbacks queued by successive asynchronous `initialize`
calls made while the state is `LOADING` are, when the controller resolves to
`READY`, invoked in exactly the order the calls were made: the drain trace is
the enqueue order (the `shift()` loop dequeues the head, invokes it, then
dequeues the next). -/
theorem c6_success_callbacks_fifo
    (calls : List (Option String × Option String × Nat)) (s : EE)
    (hs : s.ready = InitState.LOADING) :
    initializationSuccess (Except.ok ()) (asyncCalls calls s) =
      (⟨InitState.READY, [], []⟩,
       (s.successCallbacks ++ calls.map (fun c => c.2.2)).map Ev.invokeSuccess) := by
  rw [asyncCalls_loading calls s hs]
  simp [initializationSuccess]

/-- Witness for `c6_success_callbacks_fifo`: three asynchronous calls queued
behind an in-flight load; the drain trace lists their callbacks in call
order. -/
theorem c6_success_callbacks_fifo_witness :
    initializationSuccess (Except.ok ())
        (asyncCalls [(none, none, 1), (none, none, 2), (none, none, 3)]
          ⟨InitState.LOADING, [], []⟩) =
      (⟨InitState.READY, [], []⟩,
       [Ev.invokeSuccess 1, Ev.invokeSuccess 2, Ev.invokeSuccess 3]) :=
  c6_success_callbacks_fifo [(none, none, 1), (none, none, 2), (none, none, 3)]
    ⟨InitState.LOADING, [], []⟩ rfl

/-- C2 counterexample: the queue-empty invariant fails on a reachable state.
One asynchronous `initialize` brings the controller to `LOADING` with a
queued success callback; `ee.reset()` then sets `NOT_READY` but — as the
source shows — touches neither callback queue, leaving a `NOT_READY` state
whose success queue still holds the callback. -/
theorem c2_reset_leaves_queued_callbacks :
    run [Step.init none none (some 1) none (Except.ok ()) (Except.ok ()),
         Step.reset] =
      ⟨InitState.NOT_READY, [1], []⟩ ∧
    ¬ QueuesEmptyInv ⟨InitState.NOT_READY, [1], []⟩ := by
  decide

/-- C2 (amended): under every sequence of `initialize` calls and internal
success/failure resolutions that contains no `reset`, every reachable state
satisfies the invariant: whenever the state is `NOT_READY` or `READY` (i.e.
outside a resolution in flight), both callback queues are empty.  (`reset`
breaks the invariant because it does not clear the queues.) -/
theorem c2_queues_empty_outside_loading
    (steps : List Step) (hnr : ∀ st ∈ steps, st ≠ Step.reset) :
    QueuesEmptyInv (run steps) := by
  have main : ∀ (steps : List Step) (s : EE), (∀ st ∈ steps, st ≠ Step.reset) →
      QueuesEmptyInv s → QueuesEmptyInv (steps.foldl stepRun s) := by
    intro steps
    induction steps with
    | nil => intro s _ hinv; simpa using hinv
    | cons st rest ih =>
        intro s hnr hinv
        have hst : st ≠ Step.reset := hnr st (List.mem_cons_self st rest)
        have hrest : ∀ x ∈ rest, x ≠ Step.reset :=
          fun x hx => hnr x (List.mem_cons_of_mem st hx)
        have hpres : QueuesEmptyInv (stepRun s st) := by
          cases st with
          | reset => exact absurd rfl hst
          | asyncSuccess h =>
              cases h with
              | ok u =>
                  by_cases hl : s.ready = InitState.LOADING
                  · simp [stepRun, initializationSuccess, hl, QueuesEmptyInv]
                  · simpa [stepRun, initializationSuccess, hl] using hinv
              | error e =>
                  by_cases hl : s.ready = InitState.LOADING
                  · simp [stepRun, initializationSuccess, initializationFailure,
                      hl, QueuesEmptyInv]
                  · simpa [stepRun, initializationSuccess, initializationFailure,
                      hl] using hinv
          | asyncFailure e =>
              by_cases hl : s.ready = InitState.LOADING
              · simp [stepRun, initializationFailure, hl, QueuesEmptyInv]
              · simpa [stepRun, initializationFailure, hl] using hinv
          | init b t os oe l h =>
              by_cases hfast : s.ready = InitState.READY ∧ falsy b ∧ falsy t
              · simpa [stepRun, initializeLib, hfast] using hinv
              · cases os with
                | none =>
                    cases oe with
                    | some ecb => simpa [stepRun, initializeLib, hfast] using hinv
                    | none =>
                        cases l with
                        | ok u =>
                            cases h with
                            | ok u2 =>
                                simp [stepRun, initializeLib, hfast,
                                  initializationSuccess, QueuesEmptyInv]
                            | error e =>
                                simp [stepRun, initializeLib, hfast,
                                  initializationSuccess, initializationFailure,
                                  QueuesEmptyInv]
                        | error e =>
                            simp [stepRun, initializeLib, hfast,
                              initializationFailure, QueuesEmptyInv]
                | some cb =>
                    -- asynchronous call: the resulting state is LOADING either
                    -- way, so the invariant is vacuous.
                    intro hready
                    exfalso
                    cases oe <;>
                      simp [stepRun, initializeLib, hfast] at hready <;>
                      split at hready <;> simp_all
        exact ih (stepRun s st) hrest hpres
  exact main steps init0 hnr (by intro h; exact ⟨rfl, rfl⟩)

/-- Witness for `c2_queues_empty_outside_loading`: an asynchronous call
resolved by a successful load; the resulting READY state has empty queues. -/
theorem c2_queues_empty_outside_loading_witness :
    QueuesEmptyInv
      (run [Step.init none none (some 1) none (Except.ok ()) (Except.ok ()),
            Step.asyncSuccess (Except.ok ())]) :=
  c2_queues_empty_outside_loading
    [Step.init none none (some 1) none (Except.ok ()) (Except.ok ()),
     Step.asyncSuccess (Except.ok ())] (by decide)

/-- The fifteen type names with fixed rules in `ee.promote_`'s `switch`; any
other target type name falls to the default branch. -/
def switchCaseNames : List String :=
  ["Image", "ImageCollection", "Feature", "EEObject", "Geometry",
   "FeatureCollection", "EECollection", "Collection", "Filter", "ErrorMargin",
   "Algorithm", "Date", "Dictionary", "String", "List"]

/-- The amended C8 claim's description of the default promotion branch,
written from the spec's words with "non-null" corrected to "truthy": for a
registered type name and a truthy value, an instance is returned unchanged, a
string selects the zero-argument factory member of that name (failing with
`UnknownAlgorithm` naming type and member when absent), and any other value
constructs a new instance; a falsy value or an unregistered name returns the
value unchanged. -/
def promoteDefaultSpec (r : Registry) (arg : EEValue) (klass : String) :
    Except String EEValue :=
  if r.classes.contains klass ∧ truthy arg then
    if instanceofName arg klass then Except.ok arg
    else
      match arg with
      | EEValue.str s =>
          match r.member klass s with
          | none => Except.error ("Unknown algorithm: " ++ klass ++ "." ++ s)
          | some v => Except.ok v
      | _ => Except.ok (defaultNew klass arg)
  else Except.ok arg

/-- C8 counterexample: the default branch guards on JavaScript truthiness
(`klass in exportedEE && arg`), not on non-nullness.  With a registered class
`Klass` and the non-null value `0`, the claim says a new `Klass` instance is
constructed, but the code returns `0` unchanged — not an instance of
`Klass`. -/
theorem c8_falsy_nonnull_value_not_promoted :
    promote ⟨["Klass"], []⟩ (EEValue.num 0) "Klass" = Except.ok (EEValue.num 0) ∧
    instanceofName (EEValue.num 0) "Klass" = false := by
  decide

/-- C8 (amended): for every target type name outside the fixed `switch`
cases and every non-`null`, non-`undefined` value, the default branch behaves
as the claim says with "non-null" read as "truthy": registered + truthy ⇒
instance unchanged / string-as-factory (raising `Unknown algorithm:
klass.member` when the member is missing) / construct a new instance;
otherwise (falsy value or unregistered name) the value is returned
unchanged. -/
theorem c8_default_branch_follows_spec
    (r : Registry) (T : String) (x : EEValue)
    (hT : T ∉ switchCaseNames)
    (h1 : x ≠ EEValue.null) (h2 : x ≠ EEValue.undef) :
    promote r x T = promoteDefaultSpec r x T := by
  have hm := hT
  simp only [switchCaseNames, List.mem_cons, List.not_mem_nil, or_false] at hm
  push_neg at hm
  obtain ⟨n1, n2, n3, n4, n5, n6, n7, n8, n9, n10, n11, n12, n13, n14, n15⟩ := hm
  unfold promote promoteSwitch promoteDefaultSpec
  rw [if_neg h1, if_neg h2]
  simp [n1, n2, n3, n4, n5, n6, n7, n8, n9, n10, n11, n12, n13, n14, n15]

/-- Witness for `c8_default_branch_follows_spec`: a registered class `Klass`
with a factory member `x`; promoting the string `"x"` matches the spec's
description of the default branch. -/
theorem c8_default_branch_follows_spec_witness :
    promote ⟨["Klass"], [("Klass", [("x", EEValue.inst "Klass" (EEValue.num 1))])]⟩
        (EEValue.str "x") "Klass" =
      promoteDefaultSpec
        ⟨["Klass"], [("Klass", [("x", EEValue.inst "Klass" (EEValue.num 1))])]⟩
        (EEValue.str "x") "Klass" :=
  c8_default_branch_follows_spec _ "Klass" (EEValue.str "x") (by decide)
    (by decide) (by decide)

/-! ### Promotion idempotence (C9) -/

/-- A computed object is not `null`. -/
theorem isComputedObject_ne_null {w : EEValue} (h : isComputedObject w = true) :
    w ≠ EEValue.null := by
  cases w <;> simp_all [isComputedObject]

/-- A computed object is not `undefined`. -/
theorem isComputedObject_ne_undef {w : EEValue} (h : isComputedObject w = true) :
    w ≠ EEValue.undef := by
  cases w <;> simp_all [isComputedObject]

/-- Objects are truthy. -/
theorem isComputedObject_truthy {w : EEValue} (h : isComputedObject w = true) :
    truthy w = true := by
  cases w <;> simp_all [isComputedObject, truthy]

/-- An instance of class `k` is an instance of class `k`. -/
theorem instanceofName_inst_self (k : String) (v : EEValue) :
    instanceofName (EEValue.inst k v) k = true := by
  by_cases hk : k = "ComputedObject" <;> simp [instanceofName, hk, isComputedObject]

/-- Instances of any class are computed objects. -/
theorem instanceofName_isComputedObject {w : EEValue} {k : String}
    (h : instanceofName w k = true) : isComputedObject w = true := by
  unfold instanceofName at h
  split_ifs at h with hk
  · exact h
  · cases w <;> simp_all [isComputedObject]

/-- Wrapping with a hand-written constructor yields an instance of that
constructor's class. -/
theorem protoCtor_instanceof (k : String) (v : EEValue) :
    instanceofName (protoCtor k v) k = true := by
  unfold protoCtor
  split_ifs with h
  · exact h
  · exact instanceofName_inst_self k v

/-- For a value that is neither `null` nor `undefined`, `ee.promote_` is its
`switch`. -/
theorem promote_eq_switch (r : Registry) {w : EEValue} (T : String)
    (h1 : w ≠ EEValue.null) (h2 : w ≠ EEValue.undef) :
    promote r w T = promoteSwitch r w T := by
  unfold promote
  rw [if_neg h1, if_neg h2]

/-- What being an instance of class `k ≠ ComputedObject` looks like. -/
theorem instanceofName_shape {w : EEValue} {k : String}
    (hk : k ≠ "ComputedObject") (h : instanceofName w k = true) :
    ∃ k' v, w = EEValue.inst k' v ∧
      (k' = k ∨ (k = "Collection" ∧ isCollectionClass k' = true)) := by
  unfold instanceofName at h
  rw [if_neg hk] at h
  cases w with
  | inst k' v => exact ⟨k', v, rfl, by simpa using h⟩
  | null => simp at h
  | undef => simp at h
  | num n => simp at h
  | str s => simp at h
  | nativeDate v => simp at h
  | computedCall f a => simp at h
  | computedCall2 f a b => simp at h
  | apiFunc n => simp at h
  | varRef t n => simp at h

/-- Promoting the result of an `Image` promotion to `Image` is the
identity. -/
theorem c9stable_image (r : Registry) (x y : EEValue)
    (h : promoteSwitch r x "Image" = Except.ok y) :
    promote r y "Image" = Except.ok y := by
  have hx : promoteSwitch r x "Image" = Except.ok (protoCtor "Image" x) := rfl
  rw [hx] at h
  injection h with h
  subst h
  unfold protoCtor
  split_ifs with hin
  · obtain ⟨k', v, rfl, hk'⟩ := instanceofName_shape (by decide) hin
    rcases hk' with rfl | ⟨hbad, _⟩
    · rfl
    · exact absurd hbad (by decide)
  · rfl

/-- Promoting the result of an `ImageCollection` promotion again is the
identity. -/
theorem c9stable_imageCollection (r : Registry) (x y : EEValue)
    (h : promoteSwitch r x "ImageCollection" = Except.ok y) :
    promote r y "ImageCollection" = Except.ok y := by
  have hx : promoteSwitch r x "ImageCollection" =
      Except.ok (protoCtor "ImageCollection" x) := rfl
  rw [hx] at h
  injection h with h
  subst h
  unfold protoCtor
  split_ifs with hin
  · obtain ⟨k', v, rfl, hk'⟩ := instanceofName_shape (by decide) hin
    rcases hk' with rfl | ⟨hbad, _⟩
    · rfl
    · exact absurd hbad (by decide)
  · rfl

/-- Promoting the result of a `Filter` promotion again is the identity. -/
theorem c9stable_filter (r : Registry) (x y : EEValue)
    (h : promoteSwitch r x "Filter" = Except.ok y) :
    promote r y "Filter" = Except.ok y := by
  have hx : promoteSwitch r x "Filter" = Except.ok (protoCtor "Filter" x) := rfl
  rw [hx] at h
  injection h with h
  subst h
  unfold protoCtor
  split_ifs with hin
  · obtain ⟨k', v, rfl, hk'⟩ := instanceofName_shape (by decide) hin
    rcases hk' with rfl | ⟨hbad, _⟩
    · rfl
    · exact absurd hbad (by decide)
  · rfl

/-- Promoting the result of a `Feature` promotion again is the identity. -/
theorem c9stable_feature (r : Registry) (x y : EEValue)
    (h : promoteSwitch r x "Feature" = Except.ok y) :
    promote r y "Feature" = Except.ok y := by
  by_cases hc : isCollection x = true
  · have hx : promoteSwitch r x "Feature" =
        Except.ok (apiCall1 "Feature" (apiCall1 "Collection.geometry" x)) := by
      simp [promoteSwitch, hc]
    rw [hx] at h
    injection h with h
    subst h
    rfl
  · have hx : promoteSwitch r x "Feature" = Except.ok (protoCtor "Feature" x) := by
      simp [promoteSwitch, hc]
    rw [hx] at h
    injection h with h
    subst h
    unfold protoCtor
    split_ifs with hin
    · obtain ⟨k', v, rfl, hk'⟩ := instanceofName_shape (by decide) hin
      rcases hk' with rfl | ⟨hbad, _⟩
      · rfl
      · exact absurd hbad (by decide)
    · rfl

/-- Promoting the result of an `EEObject` promotion again is the identity. -/
theorem c9stable_eeobject (r : Registry) (x y : EEValue)
    (h : promoteSwitch r x "EEObject" = Except.ok y) :
    promote r y "EEObject" = Except.ok y := by
  by_cases hc : isCollection x = true
  · have hx : promoteSwitch r x "EEObject" =
        Except.ok (apiCall1 "Feature" (apiCall1 "Collection.geometry" x)) := by
      simp [promoteSwitch, hc]
    rw [hx] at h
    injection h with h
    subst h
    rfl
  · by_cases hi : instanceofName x "Image" = true
    · have hx : promoteSwitch r x "EEObject" = Except.ok x := by
        simp [promoteSwitch, hc, hi]
      rw [hx] at h
      injection h with h
      subst h
      obtain ⟨k', v, rfl, hk'⟩ := instanceofName_shape (by decide) hi
      rcases hk' with rfl | ⟨hbad, _⟩
      · rfl
      · exact absurd hbad (by decide)
    · have hx : promoteSwitch r x "EEObject" = Except.ok (protoCtor "Feature" x) := by
        simp [promoteSwitch, hc, hi]
      rw [hx] at h
      injection h with h
      subst h
      unfold protoCtor
      split_ifs with hin
      · obtain ⟨k', v, rfl, hk'⟩ := instanceofName_shape (by decide) hin
        rcases hk' with rfl | ⟨hbad, _⟩
        · rfl
        · exact absurd hbad (by decide)
      · rfl

/-- Promoting the result of a `Geometry` promotion again is the identity. -/
theorem c9stable_geometry (r : Registry) (x y : EEValue)
    (h : promoteSwitch r x "Geometry" = Except.ok y) :
    promote r y "Geometry" = Except.ok y := by
  by_cases hc : instanceofName x "FeatureCollection" = true
  · have hx : promoteSwitch r x "Geometry" =
        Except.ok (apiCall1 "Collection.geometry" x) := by
      simp [promoteSwitch, hc]
    rw [hx] at h
    injection h with h
    subst h
    rfl
  · have hx : promoteSwitch r x "Geometry" = Except.ok (protoCtor "Geometry" x) := by
      simp [promoteSwitch, hc]
    rw [hx] at h
    injection h with h
    subst h
    unfold protoCtor
    split_ifs with hin
    · obtain ⟨k', v, rfl, hk'⟩ := instanceofName_shape (by decide) hin
      rcases hk' with rfl | ⟨hbad, _⟩
      · rfl
      · exact absurd hbad (by decide)
    · rfl

/-- The result of promoting to any of the three collection aliases is a
collection instance, so promoting it again returns it unchanged.  Shared body
for the `FeatureCollection`, `EECollection` and `Collection` cases, proved
for each alias separately below. -/
theorem c9stable_collection_aux (x : EEValue)
    (hc : isCollection x = true) :
    ∃ k' v, x = EEValue.inst k' v ∧ isCollectionClass k' = true := by
  obtain ⟨k', v, rfl, hk'⟩ := instanceofName_shape (by decide) hc
  refine ⟨k', v, rfl, ?_⟩
  rcases hk' with rfl | ⟨_, hk2⟩
  · rfl
  · exact hk2

/-- Promoting the result of a `FeatureCollection` promotion again is the
identity. -/
theorem c9stable_featureCollection (r : Registry) (x y : EEValue)
    (h : promoteSwitch r x "FeatureCollection" = Except.ok y) :
    promote r y "FeatureCollection" = Except.ok y := by
  by_cases hc : isCollection x = true
  · have hx : promoteSwitch r x "FeatureCollection" = Except.ok x := by
      simp [promoteSwitch, hc]
    rw [hx] at h
    injection h with h
    subst h
    obtain ⟨k', v, rfl, hk'⟩ := c9stable_collection_aux x (by exact hc)
    have hks : (k' = "Collection" ∨ k' = "FeatureCollection") ∨ k' = "ImageCollection" := by
      simpa [isCollectionClass] using hk'
    rcases hks with (rfl | rfl) | rfl <;> rfl
  · have hx : promoteSwitch r x "FeatureCollection" =
        Except.ok (protoCtor "FeatureCollection" x) := by
      simp [promoteSwitch, hc]
    rw [hx] at h
    injection h with h
    subst h
    unfold protoCtor
    split_ifs with hin
    · obtain ⟨k', v, rfl, hk'⟩ := instanceofName_shape (by decide) hin
      rcases hk' with rfl | ⟨hbad, _⟩
      · rfl
      · exact absurd hbad (by decide)
    · rfl

/-- Promoting the result of an `EECollection` promotion again is the
identity. -/
theorem c9stable_eeCollection (r : Registry) (x y : EEValue)
    (h : promoteSwitch r x "EECollection" = Except.ok y) :
    promote r y "EECollection" = Except.ok y := by
  by_cases hc : isCollection x = true
  · have hx : promoteSwitch r x "EECollection" = Except.ok x := by
      simp [promoteSwitch, hc]
    rw [hx] at h
    injection h with h
    subst h
    obtain ⟨k', v, rfl, hk'⟩ := c9stable_collection_aux x (by exact hc)
    have hks : (k' = "Collection" ∨ k' = "FeatureCollection") ∨ k' = "ImageCollection" := by
      simpa [isCollectionClass] using hk'
    rcases hks with (rfl | rfl) | rfl <;> rfl
  · have hx : promoteSwitch r x "EECollection" =
        Except.ok (protoCtor "FeatureCollection" x) := by
      simp [promoteSwitch, hc]
    rw [hx] at h
    injection h with h
    subst h
    unfold protoCtor
    split_ifs with hin
    · obtain ⟨k', v, rfl, hk'⟩ := instanceofName_shape (by decide) hin
      rcases hk' with rfl | ⟨hbad, _⟩
      · rfl
      · exact absurd hbad (by decide)
    · rfl

/-- Promoting the result of a `Collection` promotion again is the
identity. -/
theorem c9stable_collection (r : Registry) (x y : EEValue)
    (h : promoteSwitch r x "Collection" = Except.ok y) :
    promote r y "Collection" = Except.ok y := by
  by_cases hc : isCollection x = true
  · have hx : promoteSwitch r x "Collection" = Except.ok x := by
      simp [promoteSwitch, hc]
    rw [hx] at h
    injection h with h
    subst h
    obtain ⟨k', v, rfl, hk'⟩ := c9stable_collection_aux x (by exact hc)
    have hks : (k' = "Collection" ∨ k' = "FeatureCollection") ∨ k' = "ImageCollection" := by
      simpa [isCollectionClass] using hk'
    rcases hks with (rfl | rfl) | rfl <;> rfl
  · have hx : promoteSwitch r x "Collection" =
        Except.ok (protoCtor "FeatureCollection" x) := by
      simp [promoteSwitch, hc]
    rw [hx] at h
    injection h with h
    subst h
    unfold protoCtor
    split_ifs with hin
    · obtain ⟨k', v, rfl, hk'⟩ := instanceofName_shape (by decide) hin
      rcases hk' with rfl | ⟨hbad, _⟩
      · rfl
      · exact absurd hbad (by decide)
    · rfl

/-- Promoting the result of an `ErrorMargin` promotion again is the
identity. -/
theorem c9stable_errorMargin (r : Registry) (x y : EEValue)
    (h1 : x ≠ EEValue.null) (h2 : x ≠ EEValue.undef)
    (h : promoteSwitch r x "ErrorMargin" = Except.ok y) :
    promote r y "ErrorMargin" = Except.ok y := by
  by_cases hn : isNum x = true
  · have hx : promoteSwitch r x "ErrorMargin" =
        Except.ok (apiCall2 "ErrorMargin" x (EEValue.str "meters")) := by
      simp [promoteSwitch, hn]
    rw [hx] at h
    injection h with h
    subst h
    rfl
  · have hx : promoteSwitch r x "ErrorMargin" = Except.ok x := by
      simp [promoteSwitch, hn]
    rw [hx] at h
    injection h with h
    subst h
    rw [promote_eq_switch r "ErrorMargin" h1 h2]
    simp [promoteSwitch, hn]

/-- Promoting the result of an `Algorithm` promotion again is the
identity. -/
theorem c9stable_algorithm (r : Registry) (x y : EEValue)
    (h1 : x ≠ EEValue.null) (h2 : x ≠ EEValue.undef)
    (h : promoteSwitch r x "Algorithm" = Except.ok y) :
    promote r y "Algorithm" = Except.ok y := by
  cases x with
  | null => exact absurd rfl h1
  | undef => exact absurd rfl h2
  | num n => injection h with h; subst h; rfl
  | str s => injection h with h; subst h; rfl
  | nativeDate v => injection h with h; subst h; rfl
  | computedCall f a => injection h with h; subst h; rfl
  | computedCall2 f a b => injection h with h; subst h; rfl
  | inst k v => injection h with h; subst h; rfl
  | apiFunc n => injection h with h; subst h; rfl
  | varRef t n => injection h with h; subst h; rfl

/-- Promoting the result of a `Date` promotion again is the identity — for a
value that is not a computed object (the computed-object case double-wraps
and is the claim's counterexample). -/
theorem c9stable_date (r : Registry) (x y : EEValue)
    (h1 : x ≠ EEValue.null) (h2 : x ≠ EEValue.undef)
    (hnc : ¬ isComputedObject x = true)
    (h : promoteSwitch r x "Date" = Except.ok y) :
    promote r y "Date" = Except.ok y := by
  cases x with
  | null => exact absurd rfl h1
  | undef => exact absurd rfl h2
  | computedCall f a => exact absurd rfl hnc
  | computedCall2 f a b => exact absurd rfl hnc
  | inst k v => exact absurd rfl hnc
  | varRef t n => exact absurd rfl hnc
  | num n => injection h with h; subst h; rfl
  | str s => injection h with h; subst h; rfl
  | nativeDate v => injection h with h; subst h; rfl
  | apiFunc n => injection h with h; subst h; rfl

/-- Promoting the result of a `Dictionary` promotion again is the
identity. -/
theorem c9stable_dictionary (r : Registry) (x y : EEValue)
    (h1 : x ≠ EEValue.null) (h2 : x ≠ EEValue.undef)
    (h : promoteSwitch r x "Dictionary" = Except.ok y) :
    promote r y "Dictionary" = Except.ok y := by
  by_cases hd : r.classes.contains "Dictionary" = true
  · by_cases hi : instanceofName x "Dictionary" = true
    · have hx : promoteSwitch r x "Dictionary" = Except.ok x := by
        simp [promoteSwitch, hd, hi]
      rw [hx] at h
      injection h with h
      subst h
      rw [promote_eq_switch r "Dictionary" h1 h2]
      simp [promoteSwitch, hd, hi]
    · by_cases hco : isComputedObject x = true
      · have hd' : "Dictionary" ∈ r.classes := by simpa using hd
        have hx : promoteSwitch r x "Dictionary" =
            Except.ok (EEValue.inst "Dictionary" x) := by
          simp [promoteSwitch, hd', hi, hco]
        rw [hx] at h
        injection h with h
        subst h
        rw [promote_eq_switch r "Dictionary" (by simp) (by simp)]
        simp [promoteSwitch, hd', instanceofName_inst_self]
      · have hx : promoteSwitch r x "Dictionary" = Except.ok x := by
          simp [promoteSwitch, hd, hi, hco]
        rw [hx] at h
        injection h with h
        subst h
        rw [promote_eq_switch r "Dictionary" h1 h2]
        simp [promoteSwitch, hd, hi, hco]
  · have hd' : "Dictionary" ∉ r.classes := by simpa using hd
    have hx : promoteSwitch r x "Dictionary" = Except.ok x := by
      simp [promoteSwitch, hd']
    rw [hx] at h
    injection h with h
    subst h
    rw [promote_eq_switch r "Dictionary" h1 h2]
    simp [promoteSwitch, hd']

/-- Promoting the result of a `String` promotion again is the identity. -/
theorem c9stable_string (r : Registry) (x y : EEValue)
    (h1 : x ≠ EEValue.null) (h2 : x ≠ EEValue.undef)
    (h : promoteSwitch r x "String" = Except.ok y) :
    promote r y "String" = Except.ok y := by
  cases x with
  | null => exact absurd rfl h1
  | undef => exact absurd rfl h2
  | num n => injection h with h; subst h; rfl
  | str s => injection h with h; subst h; rfl
  | nativeDate v => injection h with h; subst h; rfl
  | computedCall f a => injection h with h; subst h; rfl
  | computedCall2 f a b => injection h with h; subst h; rfl
  | apiFunc n => injection h with h; subst h; rfl
  | varRef t n => injection h with h; subst h; rfl
  | inst k v =>
      by_cases hk : k = "String"
      · subst hk
        injection h with h
        subst h
        rfl
      · have hcond : (isStr (EEValue.inst k v) ||
            instanceofName (EEValue.inst k v) "String" ||
            isComputedObject (EEValue.inst k v) ||
            isVarOfStringType (EEValue.inst k v)) = true := by
          simp [isComputedObject]
        have hins : instanceofName (EEValue.inst k v) "String" = false := by
          simp [instanceofName, hk]
        have hx : promoteSwitch r (EEValue.inst k v) "String" =
            Except.ok (EEValue.inst "String" (EEValue.inst k v)) := by
          simp [promoteSwitch, protoCtor, hins, isComputedObject, isStr,
            isVarOfStringType]
        rw [hx] at h
        injection h with h
        subst h
        rfl

/-- Promoting the result of a `List` promotion again is the identity. -/
theorem c9stable_list (r : Registry) (x y : EEValue)
    (h1 : x ≠ EEValue.null) (h2 : x ≠ EEValue.undef)
    (h : promoteSwitch r x "List" = Except.ok y) :
    promote r y "List" = Except.ok y := by
  have hx : promoteSwitch r x "List" = Except.ok x := by
    simp [promoteSwitch]
  rw [hx] at h
  injection h with h
  subst h
  rw [promote_eq_switch r "List" h1 h2]
  exact hx

/-- Promoting the result of a default-branch promotion again is the
identity, provided the registry's factory members return instances of their
own class. -/
theorem c9stable_default (r : Registry) (hF : r.FactoriesTyped) (T : String)
    (hT : T ∉ switchCaseNames) (x y : EEValue)
    (h1 : x ≠ EEValue.null) (h2 : x ≠ EEValue.undef)
    (h : promoteSwitch r x T = Except.ok y) :
    promote r y T = Except.ok y := by
  have hm := hT
  simp only [switchCaseNames, List.mem_cons, List.not_mem_nil, or_false] at hm
  push_neg at hm
  obtain ⟨n1, n2, n3, n4, n5, n6, n7, n8, n9, n10, n11, n12, n13, n14, n15⟩ := hm
  have hsw : ∀ w : EEValue, promoteSwitch r w T =
      (if r.classes.contains T ∧ truthy w then
        if instanceofName w T then Except.ok w
        else
          match w with
          | EEValue.str s =>
              match r.member T s with
              | none => Except.error ("Unknown algorithm: " ++ T ++ "." ++ s)
              | some v => Except.ok v
          | _ => Except.ok (defaultNew T w)
      else Except.ok w) := by
    intro w
    unfold promoteSwitch
    simp [n1, n2, n3, n4, n5, n6, n7, n8, n9, n10, n11, n12, n13, n14, n15]
  rw [hsw] at h
  by_cases hreg : r.classes.contains T = true ∧ truthy x = true
  · rw [if_pos hreg] at h
    by_cases hi : instanceofName x T = true
    · rw [if_pos hi] at h
      injection h with h
      subst h
      rw [promote_eq_switch r T h1 h2, hsw, if_pos hreg, if_pos hi]
    · rw [if_neg hi] at h
      cases x with
      | null => exact absurd rfl h1
      | undef => exact absurd rfl h2
      | str s =>
          have h' : (match r.member T s with
              | none =>
                  (Except.error ("Unknown algorithm: " ++ T ++ "." ++ s) :
                    Except String EEValue)
              | some v => Except.ok v) = Except.ok y := h
          cases hm : r.member T s with
          | none => rw [hm] at h'; exact absurd h' (by simp)
          | some v =>
              rw [hm] at h'
              injection h' with h'
              subst h'
              have hin : instanceofName v T = true := hF T s v hm
              have hco := instanceofName_isComputedObject hin
              rw [promote_eq_switch r T (isComputedObject_ne_null hco)
                (isComputedObject_ne_undef hco), hsw,
                if_pos ⟨hreg.1, isComputedObject_truthy hco⟩, if_pos hin]
      | num n =>
          injection h with h
          subst h
          rw [promote_eq_switch r T (by simp [defaultNew, isComputedObject]) (by simp [defaultNew, isComputedObject]),
            hsw]
          rw [if_pos ⟨hreg.1, by simp [defaultNew, isComputedObject, truthy]⟩,
            if_pos (by simp [defaultNew, isComputedObject]; exact instanceofName_inst_self T _)]
      | nativeDate v =>
          injection h with h
          subst h
          rw [promote_eq_switch r T (by simp [defaultNew, isComputedObject]) (by simp [defaultNew, isComputedObject]),
            hsw]
          rw [if_pos ⟨hreg.1, by simp [defaultNew, isComputedObject, truthy]⟩,
            if_pos (by simp [defaultNew, isComputedObject]; exact instanceofName_inst_self T _)]
      | computedCall f a =>
          injection h with h
          subst h
          rw [promote_eq_switch r T (by simp [defaultNew, isComputedObject])
            (by simp [defaultNew, isComputedObject]), hsw]
          rw [if_pos ⟨hreg.1, by simp [defaultNew, isComputedObject, truthy]⟩,
            if_pos (by simp [defaultNew, isComputedObject]; exact instanceofName_inst_self T _)]
      | computedCall2 f a b =>
          injection h with h
          subst h
          rw [promote_eq_switch r T (by simp [defaultNew, isComputedObject])
            (by simp [defaultNew, isComputedObject]), hsw]
          rw [if_pos ⟨hreg.1, by simp [defaultNew, isComputedObject, truthy]⟩,
            if_pos (by simp [defaultNew, isComputedObject]; exact instanceofName_inst_self T _)]
      | inst k v =>
          injection h with h
          subst h
          rw [promote_eq_switch r T (by simp [defaultNew, isComputedObject])
            (by simp [defaultNew, isComputedObject]), hsw]
          rw [if_pos ⟨hreg.1, by simp [defaultNew, isComputedObject, truthy]⟩,
            if_pos (by simp [defaultNew, isComputedObject]; exact instanceofName_inst_self T _)]
      | apiFunc n =>
          injection h with h
          subst h
          rw [promote_eq_switch r T (by simp [defaultNew, isComputedObject]) (by simp [defaultNew, isComputedObject]),
            hsw]
          rw [if_pos ⟨hreg.1, by simp [defaultNew, isComputedObject, truthy]⟩,
            if_pos (by simp [defaultNew, isComputedObject]; exact instanceofName_inst_self T _)]
      | varRef t n =>
          injection h with h
          subst h
          rw [promote_eq_switch r T (by simp [defaultNew, isComputedObject])
            (by simp [defaultNew, isComputedObject]), hsw]
          rw [if_pos ⟨hreg.1, by simp [defaultNew, isComputedObject, truthy]⟩,
            if_pos (by simp [defaultNew, isComputedObject]; exact instanceofName_inst_self T _)]
  · rw [if_neg hreg] at h
    injection h with h
    subst h
    rw [promote_eq_switch r T h1 h2, hsw, if_neg hreg]

/-- C9 counterexample: promoting a computed object to `Date` is not
idempotent.  The `Date` branch wraps any `ee.ComputedObject` in a fresh call
to the `Date` algorithm, so a second promotion wraps the first result again:
`promote(promote(x, Date), Date)` is `Date(Date(x))`, not `Date(x)`.  Neither
promotion raises. -/
theorem c9_date_promotion_double_wraps :
    promote ⟨[], []⟩ (EEValue.computedCall "foo" (EEValue.num 1)) "Date" =
      Except.ok (EEValue.computedCall "Date"
        (EEValue.computedCall "foo" (EEValue.num 1))) ∧
    promote ⟨[], []⟩
        (EEValue.computedCall "Date" (EEValue.computedCall "foo" (EEValue.num 1)))
        "Date" =
      Except.ok (EEValue.computedCall "Date" (EEValue.computedCall "Date"
        (EEValue.computedCall "foo" (EEValue.num 1)))) ∧
    EEValue.computedCall "Date" (EEValue.computedCall "Date"
        (EEValue.computedCall "foo" (EEValue.num 1))) ≠
      EEValue.computedCall "Date" (EEValue.computedCall "foo" (EEValue.num 1)) := by
  decide

/-- C9 (amended): promotion is idempotent — `promote(promote(x, T), T) =
promote(x, T)` whenever `promote(x, T)` does not raise — for every target
type name `T` and value `x` EXCEPT the combination of target `Date` with a
computed-object value, which wraps in a further `Date` call on each
promotion.  For the default branch this assumes the registry's zero-argument
factory members return instances of their own class (they live outside
`ee.js`). -/
theorem c9_promotion_idempotent_except_date
    (r : Registry) (hF : r.FactoriesTyped) (T : String) (x y : EEValue)
    (hexc : ¬ (T = "Date" ∧ isComputedObject x = true))
    (h : promote r x T = Except.ok y) :
    promote r y T = Except.ok y := by
  by_cases h1 : x = EEValue.null
  · subst h1
    simp [promote] at h
    subst h
    simp [promote]
  by_cases h2 : x = EEValue.undef
  · subst h2
    simp [promote] at h
    subst h
    simp [promote]
  rw [promote_eq_switch r T h1 h2] at h
  by_cases k1 : T = "Image"
  · subst k1; exact c9stable_image r x y h
  by_cases k2 : T = "ImageCollection"
  · subst k2; exact c9stable_imageCollection r x y h
  by_cases k3 : T = "Feature"
  · subst k3; exact c9stable_feature r x y h
  by_cases k4 : T = "EEObject"
  · subst k4; exact c9stable_eeobject r x y h
  by_cases k5 : T = "Geometry"
  · subst k5; exact c9stable_geometry r x y h
  by_cases k6 : T = "FeatureCollection"
  · subst k6; exact c9stable_featureCollection r x y h
  by_cases k7 : T = "EECollection"
  · subst k7; exact c9stable_eeCollection r x y h
  by_cases k8 : T = "Collection"
  · subst k8; exact c9stable_collection r x y h
  by_cases k9 : T = "Filter"
  · subst k9; exact c9stable_filter r x y h
  by_cases k10 : T = "ErrorMargin"
  · subst k10; exact c9stable_errorMargin r x y h1 h2 h
  by_cases k11 : T = "Algorithm"
  · subst k11; exact c9stable_algorithm r x y h1 h2 h
  by_cases k12 : T = "Date"
  · subst k12
    exact c9stable_date r x y h1 h2 (fun hc => hexc ⟨rfl, hc⟩) h
  by_cases k13 : T = "Dictionary"
  · subst k13; exact c9stable_dictionary r x y h1 h2 h
  by_cases k14 : T = "String"
  · subst k14; exact c9stable_string r x y h1 h2 h
  by_cases k15 : T = "List"
  · subst k15; exact c9stable_list r x y h1 h2 h
  have hTn : T ∉ switchCaseNames := by
    simp [switchCaseNames, k1, k2, k3, k4, k5, k6, k7, k8, k9, k10, k11, k12,
      k13, k14, k15]
  exact c9stable_default r hF T hTn x y h1 h2 h

/-- Witness for `c9_promotion_idempotent_except_date`: promoting `5` to
`Image` wraps it once; promoting the wrapped value again is the identity. -/
theorem c9_promotion_idempotent_except_date_witness :
    promote ⟨[], []⟩ (EEValue.num 5) "Image" =
      Except.ok (EEValue.inst "Image" (EEValue.num 5)) ∧
    promote ⟨[], []⟩ (EEValue.inst "Image" (EEValue.num 5)) "Image" =
      Except.ok (EEValue.inst "Image" (EEValue.num 5)) :=
  ⟨by decide,
   c9_promotion_idempotent_except_date ⟨[], []⟩
     (fun k m v hm => by simp [Registry.member] at hm) "Image"
     (EEValue.num 5) (EEValue.inst "Image" (EEValue.num 5))
     (by decide) (by decide)⟩

end EEJs
